import Mathlib

/-!
Verification development for the axiom-rag query pipeline.

The Python sources under backend/rag are shallowly embedded: pure functions
become Lean functions over String / List / Rat; floating point arithmetic is
modelled by exact rationals (all constants involved are decimal literals and
every comparison used by a claim is robust to the float/rational gap, noted
at each use); external collaborators (vector store, embedding model, cross
encoder, language model, conversation memory, the rank-bm25 library) are
injected as function parameters, exactly at the call sites where the Python
code awaits them.  Strings are assumed ASCII (the Python code lowercases and
matches ASCII patterns; the helpers below agree with Python on ASCII).
String manipulation is implemented over `List Char` so that every
definition evaluates by kernel reduction.
-/

namespace AxiomRag

/-! ### Python string primitives -/

/-- ASCII lowering, agreeing with Python `str.lower()` on ASCII. -/
def asciiLower (c : Char) : Char :=
  if 'A' ≤ c ∧ c ≤ 'Z' then Char.ofNat (c.toNat + 32) else c

/-- Python `str.lower()` (ASCII fragment). -/
def strLower (s : String) : String := String.mk (s.toList.map asciiLower)

def trimChars (l : List Char) : List Char :=
  ((l.dropWhile Char.isWhitespace).reverse.dropWhile Char.isWhitespace).reverse

/-- Python `str.strip()` (whitespace from both ends). -/
def pyStrip (s : String) : String := String.mk (trimChars s.toList)

/-- Python substring containment: `pat in s`. -/
def strContains (s pat : String) : Bool :=
  s.toList.tails.any (fun t => pat.toList.isPrefixOf t)

/-- Split a character list at every character satisfying `p`, keeping empty
pieces (the behaviour of `str.split(ch)` with an explicit separator). -/
def splitPred (p : Char → Bool) : List Char → List Char → List (List Char)
  | [], acc => [acc.reverse]
  | c :: rest, acc =>
      if p c then acc.reverse :: splitPred p rest []
      else splitPred p rest (c :: acc)

/-- Python `str.split()` with no argument: split on whitespace runs, dropping
empty pieces. -/
def pySplitWs (s : String) : List String :=
  ((splitPred Char.isWhitespace s.toList []).filter (· ≠ [])).map String.mk

/-- Worker for `pySplitOn`; the fuel starts at the length of the list, and
each step consumes at least one character, so it never runs out. -/
def splitOnGo (sep : List Char) : ℕ → List Char → List Char → List (List Char)
  | 0, _, acc => [acc.reverse]
  | _ + 1, [], acc => [acc.reverse]
  | fuel + 1, c :: rest, acc =>
      if sep.isPrefixOf (c :: rest) then
        acc.reverse :: splitOnGo sep fuel (List.drop (sep.length - 1) rest) []
      else splitOnGo sep fuel rest (c :: acc)

/-- Python `str.split(sep)` for a non-empty separator: non-overlapping
left-to-right occurrences, keeping empty pieces. -/
def pySplitOn (s sep : String) : List String :=
  if sep.toList = [] then [s]
  else (splitOnGo sep.toList s.toList.length s.toList []).map String.mk

/-- Python `sep.join(pieces)`. -/
def joinSep (sep : String) (l : List String) : String :=
  String.mk (((l.map String.toList).intersperse sep.toList).flatten)

/-- Python regex word characters `[A-Za-z0-9_]` (ASCII fragment). -/
def isWordChar (c : Char) : Bool := c.isAlpha || c.isDigit || c = '_'

/-- Maximal runs of word characters in a string. -/
def wordRuns (s : String) : List String :=
  ((splitPred (fun c => !isWordChar c) s.toList []).filter (· ≠ [])).map String.mk

def isLowerAlphaStr (s : String) : Bool :=
  s.toList.all (fun c => 'a' ≤ c && c ≤ 'z')

/-- Python `re.findall(r"\b[a-z]+\b", s)` on an (already lowercased) string:
the maximal word-character runs made up solely of lowercase ascii letters.
A run containing a digit or underscore has no word boundary inside it, so it
cannot contribute a match. -/
def lowerAlphaWords (s : String) : List String :=
  (wordRuns s).filter isLowerAlphaStr

/-- Python `re.findall(r"\b[a-z]{3,}\b", s)`. -/
def lowerAlphaWords3 (s : String) : List String :=
  (wordRuns s).filter (fun w => isLowerAlphaStr w && w.toList.length ≥ 3)

/-- Python `max(iterable, default=d)`. -/
def pyMax (l : List ℚ) (dflt : ℚ) : ℚ :=
  match l with
  | [] => dflt
  | x :: xs => xs.foldl max x

/-- Numeric value of a digit list (most significant first). -/
def digitsToNat (l : List Char) : ℕ :=
  l.foldl (fun n c => n * 10 + (c.toNat - 48)) 0

/-- Python `float(s)` restricted to optionally signed decimal numerals, which
is the shape the SCORE field of the verifier response takes; any other input
is a parse failure (Python raises ValueError, modelled as `none`). -/
def parseDecimal (s : String) : Option ℚ :=
  let l := (pyStrip s).toList
  let (sign, l) : ℚ × List Char :=
    match l with
    | '-' :: rest => (-1, rest)
    | '+' :: rest => (1, rest)
    | _ => (1, l)
  let intPart := l.takeWhile Char.isDigit
  let rest := l.dropWhile Char.isDigit
  match rest with
  | [] => if intPart = [] then none else some (sign * digitsToNat intPart)
  | '.' :: frac =>
      if frac.all Char.isDigit && (intPart ≠ [] || frac ≠ []) then
        some (sign * ((digitsToNat intPart : ℚ)
          + (digitsToNat frac : ℚ) / ((10 : ℚ) ^ frac.length)))
      else none
  | _ => none

/-! ### Stable sorting (Python `list.sort` / `sorted` are stable)

`stableInsert keep x l` inserts `x` into `l`, walking past every already
placed element `y` with `keep y x = true`.  Folding it over the input from
the left yields a stable sort for the order induced by `keep`. -/

def stableInsert {α : Type} (keep : α → α → Bool) (x : α) : List α → List α
  | [] => [x]
  | y :: ys => if keep y x then y :: stableInsert keep x ys else x :: y :: ys

def stableSortG {α : Type} (keep : α → α → Bool) (l : List α) : List α :=
  l.foldl (fun acc x => stableInsert keep x acc) []

/-- Python `sort(key=…, reverse=True)`: descending by key, stable (an element
placed earlier stays ahead of a later element with an equal key). -/
def stableSortDesc {α : Type} (key : α → ℚ) (l : List α) : List α :=
  stableSortG (fun y x => decide (key x ≤ key y)) l

theorem length_stableInsert {α : Type} (keep : α → α → Bool) (x : α) (l : List α) :
    (stableInsert keep x l).length = l.length + 1 := by
  induction l with
  | nil => rfl
  | cons y ys ih =>
      simp only [stableInsert]
      split <;> simp [ih, List.length_cons]

theorem length_stableSortG {α : Type} (keep : α → α → Bool) (l : List α) :
    (stableSortG keep l).length = l.length := by
  suffices h : ∀ acc : List α,
      (l.foldl (fun acc x => stableInsert keep x acc) acc).length
        = acc.length + l.length by
    simpa using h []
  induction l with
  | nil => intro acc; simp
  | cons y ys ih =>
      intro acc
      simp only [List.foldl_cons, ih, length_stableInsert, List.length_cons]
      omega

theorem length_stableSortDesc {α : Type} (key : α → ℚ) (l : List α) :
    (stableSortDesc key l).length = l.length := length_stableSortG _ l

/-! ### Configuration defaults (config/settings.py) -/

def retrieval_initial_k : ℕ := 50
def retrieval_vector_k : ℕ := 20
def retrieval_bm25_k : ℕ := 20
def retrieval_final_k : ℕ := 5
def relevance_threshold : ℚ := 0.3
def max_retries : ℕ := 2

/-! ### Intent router, Layer 0 (rag/intent_router.py) -/

/-- STOPWORD_SET from rag/intent_router.py (verbatim). -/
def STOPWORD_SET : List String :=
  ["the", "a", "an", "is", "are", "was", "were", "be", "been", "being",
   "have", "has", "had", "do", "does", "did", "will", "would", "could",
   "should", "may", "might", "must", "shall", "can", "need", "to", "of",
   "in", "for", "on", "with", "at", "by", "from", "as", "into", "through",
   "and", "but", "if", "or", "because", "until", "while", "this", "that",
   "these", "those", "it", "its", "what", "which", "who", "whom", "how",
   "when", "where", "why", "i", "me", "my", "you", "your", "he", "she",
   "they", "them", "we", "our", "there", "here"]

/-- The word tokens Layer 0 extracts: `re.findall(r"\b[a-z]+\b", query_lower)`
over the stripped, lowercased query. -/
def layer0Words (query : String) : List String :=
  lowerAlphaWords (strLower (pyStrip query))

/-- `len(set(query_lower.replace(" ", "")))`: distinct characters after
removing space characters (only the space, not all whitespace). -/
def uniqueCharCount (s : String) : ℕ :=
  ((s.toList.filter (· ≠ ' ')).dedup).length

/-- layer0_hard_rules.  The stopword-density comparison `ratio > 0.9` is done
in float in Python; together with the `len(words) <= 5` conjunct the ratio is
of the form k/n with n ≤ 5, never inside the gap between the rational 9/10
and the double closest to 0.9, so the rational comparison is exact. -/
def layer0HardRules (query0 : String) : Option (String × ℚ) :=
  let query := pyStrip query0
  let queryLower := strLower query
  if query.toList.length ≤ 1 then some ("garbage", 1)
  else if !(query.toList.any Char.isAlpha) then some ("garbage", 1)
  else
    let alphaCount := (query.toList.filter Char.isAlpha).length
    if alphaCount < 2 ∧ query.toList.length > 2 then some ("garbage", 1)
    else
      let words := lowerAlphaWords queryLower
      let stopCount := (words.filter (fun w => STOPWORD_SET.contains w)).length
      if words ≠ [] ∧ (stopCount : ℚ) / (words.length : ℚ) > 0.9 ∧ words.length ≤ 5 then
        some ("garbage", 0.95)
      else if query.toList.length ≥ 4 ∧ uniqueCharCount queryLower ≤ 2 then
        some ("garbage", 0.95)
      else none

example : layer0HardRules "!!!" = some ("garbage", 1) := by
  with_unfolding_all decide
example : layer0HardRules "the the the" = some ("garbage", 0.95) := by
  with_unfolding_all decide
example : layer0HardRules "what is CAP theorem" = none := by
  with_unfolding_all decide

/-! ### Document and metadata model

Chunks carry their metadata as a Python dict; the fields the pipeline reads
are modelled as optional record fields (absent key = `none`). -/

structure Meta where
  source : Option String := none
  page : Option ℕ := none
  chunkId : Option String := none
  parentId : Option String := none
  parentContext : Option String := none
  docId : Option String := none
  parentIdx : Option ℕ := none
  childIdx : Option ℕ := none
  expandedFromChild : Bool := false
  retrievalScore : Option ℚ := none
deriving DecidableEq, Repr

/-- A langchain `Document`: page content plus metadata. -/
structure Doc where
  content : String
  meta : Meta := {}
deriving DecidableEq, Repr

/-- A document dict held in the pipeline state:
`{"content": …, "metadata": …, "relevance_score": …}`. -/
structure StateDoc where
  content : String
  meta : Meta := {}
  relevance_score : ℚ := 0
deriving DecidableEq, Repr

/-- An entry of the user-visible `sources` list built by grade_documents. -/
structure SourceEntry where
  filename : String
  page : Option ℕ := none
  chunkId : String := ""
  relevance_score : ℚ := 0
  content_preview : String := ""
deriving DecidableEq, Repr

/-! ### Groundedness verifier (RAGNodes._fast_groundedness_check and
RAGNodes.check_hallucination, rag/nodes.py) -/

/-- The stopword list of `_fast_groundedness_check` (verbatim; note it is a
different set from the intent router's `STOPWORD_SET` and, unlike it, does
contain the RAG-system tokens "context", "document", "source",
"information"). -/
def GROUNDEDNESS_STOPWORDS : List String :=
  ["the", "a", "an", "is", "are", "was", "were", "be", "been", "being",
   "have", "has", "had", "do", "does", "did", "will", "would", "could",
   "should", "may", "might", "must", "shall", "can", "need", "dare",
   "ought", "used", "to", "of", "in", "for", "on", "with", "at", "by",
   "from", "as", "into", "through", "during", "before", "after", "above",
   "below", "between", "under", "again", "further", "then", "once", "here",
   "there", "when", "where", "why", "how", "all", "each", "few", "more",
   "most", "other", "some", "such", "no", "nor", "not", "only", "own",
   "same", "so", "than", "too", "very", "just", "and", "but", "if", "or",
   "because", "until", "while", "this", "that", "these", "those", "it",
   "its", "i", "me", "my", "myself", "we", "our", "you", "your", "he",
   "him", "his", "she", "her", "they", "them", "their", "what", "which",
   "who", "whom", "according", "based", "provided", "context", "document",
   "source", "information", "answer", "question"]

/-- The content trigrams of the answer: for every window of three
consecutive whitespace tokens, keep the joined trigram when at least two
distinct words of the window are not stopwords (`set(words) - stopwords`). -/
def answerTrigrams : List String → List String
  | w1 :: w2 :: w3 :: rest =>
      let tri := w1 ++ " " ++ w2 ++ " " ++ w3
      let keep := (([w1, w2, w3].dedup).filter
        (fun w => !GROUNDEDNESS_STOPWORDS.contains w)).length ≥ 2
      (if keep then [tri] else []) ++ answerTrigrams (w2 :: w3 :: rest)
  | _ => []

/-- `_fast_groundedness_check(answer, sources)`.  The `sources` argument is
the list of source dicts; only their "content" entries are read
(`s.get("content", s.get("page_content", ""))`), so the embedding takes the
content strings directly. -/
def fastGroundednessCheck (answer : String) (sources : List String) : ℚ :=
  if sources = [] then 0.5
  else
    let sourceText := strLower (joinSep " " sources)
    if pyStrip sourceText = "" then 0.5
    else
      let answerLower := strLower answer
      let answerWords := ((lowerAlphaWords3 answerLower).dedup).filter
        (fun w => !GROUNDEDNESS_STOPWORDS.contains w)
      if answerWords = [] then 0.5
      else
        let matchedWords :=
          (answerWords.filter (fun w => strContains sourceText w)).length
        let wordOverlapScore : ℚ := (matchedWords : ℚ) / (answerWords.length : ℚ)
        let words := pySplitWs answerLower
        let trigrams := (answerTrigrams words).dedup
        let matchedTrigrams :=
          (trigrams.filter (fun t => strContains sourceText t)).length
        let trigramScore : ℚ :=
          if trigrams = [] then 0 else (matchedTrigrams : ℚ) / (trigrams.length : ℚ)
        wordOverlapScore * 0.6 + trigramScore * 0.4

/-- The slice of the pipeline state read by check_hallucination. -/
structure HCheckState where
  relevant_documents : List StateDoc := []
  query_complexity : Option String := none
  answer : String := ""
  iteration : ℕ := 0
deriving Repr

/-- The update dict returned by check_hallucination. -/
structure CheckResult where
  is_grounded : Bool
  groundedness_score : ℚ
  fast_groundedness_score : ℚ
  skip_llm_hallucination_check : Bool
  hallucination_details : Option String
  iteration : ℕ
  steps : List String
deriving DecidableEq, Repr

/-- Parse of the SCORE line of the verifier response:
`score_line.split(":")[1]` of the first line containing "SCORE:", converted
with `float`; any exception leaves the fast score in place. -/
def parseScoreField (analysis : String) (fastScore : ℚ) : ℚ :=
  if strContains analysis "SCORE:" then
    match ((pySplitOn analysis "\n").filter (fun l => strContains l "SCORE:")).head? with
    | some scoreLine =>
        match (pySplitOn scoreLine ":").get? 1 with
        | some seg => (parseDecimal (pyStrip seg)).getD fastScore
        | none => fastScore
    | none => fastScore
  else fastScore

/-- The verifier reply has no parseable SCORE line: either no line contains
"SCORE:", or what follows the first colon of the first such line is not a
decimal numeral (the `except: pass` path of
`score = float(score_line.split(":")[1].strip())`).  The branches enumerate
exactly the ways that Python statement fails to produce a float. -/
def scoreFieldUnparseable (analysis : String) : Bool :=
  !(strContains analysis "SCORE:")
  || (match ((pySplitOn analysis "\n").filter (fun l => strContains l "SCORE:")).head? with
      | some scoreLine =>
          match (pySplitOn scoreLine ":").get? 1 with
          | some seg => (parseDecimal (pyStrip seg)).isNone
          | none => true
      | none => true)

/-- Parse of the ISSUES field: `analysis.split("ISSUES:")[1].strip()`, kept
unless it is (case-insensitively, in the source literally) "none". -/
def parseIssuesField (analysis : String) : Option String :=
  if strContains analysis "ISSUES:" then
    match (pySplitOn analysis "ISSUES:").get? 1 with
    | some seg =>
        let line := pyStrip seg
        if strLower line ≠ "none" then some line else none
    | none => none
  else none

/-- The tail of check_hallucination after the two skip branches: fast check,
then the model call on the ambiguous band.  `llmResponse` is the raw content
of the model reply (`response.content`). -/
def checkHallucinationMain (st : HCheckState) (llmResponse : String) : CheckResult :=
  let contents := st.relevant_documents.map (·.content)
  let fastScore := fastGroundednessCheck st.answer contents
  if fastScore ≥ 0.8 then
    { is_grounded := true, groundedness_score := fastScore,
      fast_groundedness_score := fastScore,
      skip_llm_hallucination_check := true, hallucination_details := none,
      iteration := st.iteration + 1, steps := ["hallucination_fast_pass"] }
  else if fastScore < 0.3 then
    { is_grounded := false, groundedness_score := fastScore,
      fast_groundedness_score := fastScore,
      skip_llm_hallucination_check := true,
      hallucination_details := some "Answer contains claims not found in sources",
      iteration := st.iteration + 1, steps := ["hallucination_fast_fail"] }
  else
    let analysis := pyStrip llmResponse
    { is_grounded := strContains (strLower analysis) "grounded: yes",
      groundedness_score := parseScoreField analysis fastScore,
      fast_groundedness_score := fastScore,
      skip_llm_hallucination_check := false,
      hallucination_details := parseIssuesField analysis,
      iteration := st.iteration + 1, steps := ["hallucination_llm_check"] }

/-- check_hallucination.  The empty-documents branch and the
simple/high-score branch return before the fast check; otherwise
`checkHallucinationMain` runs. -/
def checkHallucination (st : HCheckState) (llmResponse : String) : CheckResult :=
  if st.relevant_documents = [] then
    { is_grounded := true, groundedness_score := 1,
      fast_groundedness_score := 1,
      skip_llm_hallucination_check := true, hallucination_details := none,
      iteration := st.iteration + 1, steps := ["hallucination_skip"] }
  else if st.query_complexity.getD "complex" = "simple" then
    let topScore := pyMax (st.relevant_documents.map (·.relevance_score)) 0
    if topScore ≥ 70 then
      { is_grounded := true, groundedness_score := topScore / 100,
        fast_groundedness_score := topScore / 100,
        skip_llm_hallucination_check := true, hallucination_details := none,
        iteration := st.iteration + 1,
        steps := ["hallucination_skip_simple_highconf"] }
    else checkHallucinationMain st llmResponse
  else checkHallucinationMain st llmResponse

/-! ### Hybrid retriever (rag/retriever.py)

The per-collection `_indices` dict maps a collection name to a `BM25Index`.
A `BM25Index` stores the `BM25Okapi` scorer and the indexed documents; since
`BM25Okapi(corpus)` is a pure function of the tokenized corpus (rank-bm25 is
an external library), the index is modelled by its document list and the
scorer is injected at search time as `getScores : corpus → query tokens →
scores`. -/

/-- The scoring interface of the external rank-bm25 `BM25Okapi` class:
`BM25Okapi(corpus).get_scores(tokenized_query)`. -/
def BMGetScores : Type := List (List String) → List String → List ℚ

/-- The `_indices` dict of the `HybridRetriever` singleton. -/
def BMIndices : Type := String → Option (List Doc)

/-- `HybridRetriever._tokenize`: lowercase whitespace split (empty text gives
no tokens). -/
def pyTokenize (text : String) : List String :=
  if text = "" then [] else pySplitWs (strLower text)

/-- build_bm25_index: replace the index for the collection, unless the
document list is empty, in which case nothing is stored. -/
def buildBM25Index (idx : BMIndices) (c : String) (docs : List Doc) : BMIndices :=
  if docs = [] then idx
  else fun c0 => if c0 = c then some docs else idx c0

/-- add_to_bm25_index: concatenate existing and new documents and rebuild. -/
def addToBM25Index (idx : BMIndices) (c : String) (docs : List Doc) : BMIndices :=
  match idx c with
  | some existing => buildBM25Index idx c (existing ++ docs)
  | none => buildBM25Index idx c docs

/-- remove_from_bm25_index: drop the documents whose metadata doc_id is in
`ids` (a document with no doc_id is always kept, since `None` is not among
the string ids) and rebuild; delete the index when nothing remains. -/
def removeFromBM25Index (idx : BMIndices) (c : String) (ids : List String) : BMIndices :=
  match idx c with
  | none => idx
  | some docs =>
      let remaining := docs.filter (fun d =>
        match d.meta.docId with
        | some i => !ids.contains i
        | none => true)
      if remaining ≠ [] then buildBM25Index idx c remaining
      else fun c0 => if c0 = c then none else idx c0

/-- clear_bm25_index. -/
def clearBM25Index (idx : BMIndices) (c : String) : BMIndices :=
  match idx c with
  | some _ => fun c0 => if c0 = c then none else idx c0
  | none => idx

/-- `_bm25_search`: score every indexed document against the tokenized query
and return the top k, sorted by score descending (Python sort, stable). -/
def bm25Search (getScores : BMGetScores) (idx : BMIndices)
    (query c : String) (k : ℕ) : List (Doc × ℚ) :=
  match idx c with
  | none => []
  | some docs =>
      let tokenizedQuery := pyTokenize query
      if tokenizedQuery = [] then []
      else
        let corpus := docs.map (fun d => pyTokenize d.content)
        let scores := getScores corpus tokenizedQuery
        let scoredDocs := docs.zip scores
        (stableSortDesc (fun p => p.2) scoredDocs).take k

/-- The fusion identity of a chunk: chunk_id, or a key derived from the first
200 characters of the content.  Python uses `str(hash(content[:200]))`; the
prefix itself is used here, which equates exactly the contents that Python
equates (up to hash collisions). -/
def docKey (d : Doc) : String :=
  match d.meta.chunkId with
  | some cid => cid
  | none => String.mk (d.content.toList.take 200)

/-- `doc_scores[doc_id] = doc_scores.get(doc_id, 0.0) + rrf_score` on an
insertion-ordered dict. -/
def bumpScore (k : String) (v : ℚ) : List (String × ℚ) → List (String × ℚ)
  | [] => [(k, v)]
  | (k0, v0) :: rest =>
      if k0 = k then (k0, v0 + v) :: rest else (k0, v0) :: bumpScore k v rest

/-- `doc_map[doc_id] = doc` on an insertion-ordered dict. -/
def putDoc (k : String) (d : Doc) : List (String × Doc) → List (String × Doc)
  | [] => [(k, d)]
  | (k0, d0) :: rest =>
      if k0 = k then (k0, d) :: rest else (k0, d0) :: putDoc k d rest

/-- One scoring pass of `_rrf_fusion` over a result list: each document at
0-based rank `rank` contributes `1 / (rrf_k + rank + 1)`; the score field of
the input pairs is deliberately unused, exactly as in the source
(`for rank, (doc, _score) in enumerate(results)`). -/
def rrfPass (rrfK : ℕ) (results : List (Doc × ℚ))
    (acc : List (String × ℚ) × List (String × Doc)) :
    List (String × ℚ) × List (String × Doc) :=
  results.enum.foldl
    (fun acc p =>
      let key := docKey p.2.1
      let rrfScore : ℚ := 1 / ((rrfK : ℚ) + (p.1 : ℚ) + 1)
      (bumpScore key rrfScore acc.1, putDoc key p.2.1 acc.2))
    acc

/-- `_rrf_fusion`: accumulate the reciprocal-rank scores of both lists, sort
the score dict descending (Python `sorted`, stable over insertion order) and
return the top k with their documents. -/
def rrfFusion (rrfK : ℕ) (vectorResults bm25Results : List (Doc × ℚ))
    (k : ℕ) : List (Doc × ℚ) :=
  let acc := rrfPass rrfK bm25Results (rrfPass rrfK vectorResults ([], []))
  let sortedItems := stableSortDesc (fun p => p.2) acc.1
  (sortedItems.take k).filterMap
    (fun p => (acc.2.lookup p.1).map (fun d => (d, p.2)))

/-- `HybridRetriever.search`: dense search (external vector store, injected as
`vectorSearch`, already truncated to vector_k by the store), lexical search,
then edge cases and fusion.  A failing dense search yields the empty list
(the `except` branch). -/
def hybridSearch (vectorSearch : String → String → ℕ → List (Doc × ℚ))
    (getScores : BMGetScores) (idx : BMIndices)
    (query c : String) (k : ℕ) : List (Doc × ℚ) :=
  let vectorResults := vectorSearch query c retrieval_vector_k
  let bm25Results := bm25Search getScores idx query c retrieval_bm25_k
  if vectorResults = [] ∧ bm25Results = [] then []
  else if vectorResults = [] then bm25Results.take k
  else if bm25Results = [] then vectorResults.take k
  else rrfFusion 60 vectorResults bm25Results k

/-- Parent expansion, shared verbatim between
`HybridRetriever.search_with_parent_expansion` and
`RAGNodes._expand_to_parents`: walk the results, keep the first child seen
per parent_id with its content replaced by the parent context, pass chunks
without parent_id through, and sort everything by score descending. -/
def expandParents (results : List (Doc × ℚ)) : List (Doc × ℚ) :=
  let acc := results.foldl
    (fun (acc : List (String × (Doc × ℚ)) × List (Doc × ℚ)) p =>
      match p.1.meta.parentId with
      | some pid =>
          if (acc.1.lookup pid).isSome then acc
          else
            let parentContext :=
              match p.1.meta.parentContext with
              | some pc => pc
              | none => p.1.content
            let expanded : Doc :=
              { content := parentContext,
                meta := { p.1.meta with
                          retrievalScore := some p.2,
                          expandedFromChild := true } }
            (acc.1 ++ [(pid, (expanded, p.2))], acc.2)
      | none => (acc.1, acc.2 ++ [p]))
    ([], [])
  stableSortDesc (fun p => p.2) (acc.1.map (·.2) ++ acc.2)

/-- `search_with_parent_expansion`. -/
def searchWithParentExpansion (vectorSearch : String → String → ℕ → List (Doc × ℚ))
    (getScores : BMGetScores) (idx : BMIndices)
    (query c : String) (initialK finalK : ℕ) : List (Doc × ℚ) :=
  let results := hybridSearch vectorSearch getScores idx query c initialK
  if results = [] then []
  else (expandParents results).take finalK

/-! ### Cross-encoder reranker (rag/reranker.py)

`CrossEncoderReranker.predict` wraps the external sentence-transformers
model plus batch normalization; its output (one normalized score per pair)
is injected as `predictScores`.  `rerank` is embedded. -/

def crossEncoderRerank (predictScores : List (String × String) → List ℚ)
    (query : String) (documents : List String) (topK : Option ℕ) :
    List (ℕ × ℚ) :=
  if documents = [] then []
  else
    let pairs := documents.map (fun d => (query, d))
    let scores := predictScores pairs
    let indexedScores := scores.enum
    let sortedScores := stableSortDesc (fun p => p.2) indexedScores
    match topK with
    | some k => sortedScores.take k
    | none => sortedScores

/-! ### Document grading (RAGNodes.grade_documents, rag/nodes.py)

External pieces injected as parameters:
- `contextFilter` — `rag/context_filter.py`, which embeds the query and the
  candidates with the external embedding model and drops low-similarity
  candidates; its observable effect on the state is the filtered list;
- `predictScores` — the cross-encoder (see above);
- `snippet` — `rag/utils.py extract_relevant_snippet(query, content)`, a pure
  preview selector whose output only lands in `content_preview` fields. -/

/-- `state.get("rewritten_query") or state["question"]`: Python `or` falls
back on a missing or empty rewritten query. -/
def queryOf (rewritten : Option String) (question : String) : String :=
  match rewritten with
  | some r => if r = "" then question else r
  | none => question

/-- `sources_by_file[filename] = … if filename not in sources_by_file or
score > sources_by_file[filename]["relevance_score"]` on an
insertion-ordered dict. -/
def bestByFile (filename : String) (e : SourceEntry) :
    List (String × SourceEntry) → List (String × SourceEntry)
  | [] => [(filename, e)]
  | (k0, e0) :: rest =>
      if k0 = filename then
        (if e.relevance_score > e0.relevance_score then (k0, e) :: rest
         else (k0, e0) :: rest)
      else (k0, e0) :: bestByFile filename e rest

/-- The source-list entry built for a graded document. -/
def mkSourceEntry (snippet : String → String → String) (query : String)
    (doc : StateDoc) (scorePct : ℚ) : SourceEntry :=
  { filename := doc.meta.source.getD "unknown",
    page := doc.meta.page,
    chunkId := doc.meta.chunkId.getD "",
    relevance_score := scorePct,
    content_preview := snippet query doc.content }

/-- One step of the loop over the reranked `(orig_idx, score)` pairs.  An
out-of-range index would raise IndexError in Python, which the surrounding
`except` turns into the threshold fallback; that is modelled by `none`. -/
def rerankFoldStep (snippet : String → String → String) (query : String)
    (docsToGrade : List StateDoc)
    (acc : Option (List StateDoc × List (String × SourceEntry)))
    (p : ℕ × ℚ) : Option (List StateDoc × List (String × SourceEntry)) :=
  match acc with
  | none => none
  | some (rel, m) =>
      match docsToGrade.get? p.1 with
      | none => none
      | some doc =>
          let scorePct := p.2 * 100
          let entry := mkSourceEntry snippet query doc scorePct
          some (rel ++ [{ doc with relevance_score := scorePct }],
                bestByFile (doc.meta.source.getD "unknown") entry m)

/-- The loop over the reranked pairs, building relevant documents and the
per-filename source dict. -/
def buildFromReranked (snippet : String → String → String) (query : String)
    (docsToGrade : List StateDoc) (reranked : List (ℕ × ℚ)) :
    Option (List StateDoc × List (String × SourceEntry)) :=
  reranked.foldl (rerankFoldStep snippet query docsToGrade) (some ([], []))

/-- One step of the threshold-fallback loop: keep the document when it
clears the threshold — or unconditionally when nothing has been kept yet. -/
def thresholdFoldStep (snippet : String → String → String) (query : String)
    (threshold : ℚ) (acc : List StateDoc × List (String × SourceEntry))
    (doc : StateDoc) : List StateDoc × List (String × SourceEntry) :=
  let score := doc.relevance_score
  if score ≥ threshold ∨ acc.1 = [] then
    let entry := mkSourceEntry snippet query doc score
    (acc.1 ++ [doc], bestByFile (doc.meta.source.getD "unknown") entry acc.2)
  else acc

/-- The threshold fallback: sort by stored relevance score, take the top
final_k, and run the keep loop. -/
def gradeThresholdPath (snippet : String → String → String) (query : String)
    (docsToGrade : List StateDoc) (finalK : ℕ) :
    List StateDoc × List (String × SourceEntry) :=
  let threshold := relevance_threshold * 100
  let sortedDocs := (stableSortDesc (fun d => d.relevance_score) docsToGrade).take finalK
  sortedDocs.foldl (thresholdFoldStep snippet query threshold) ([], [])

/-- The update dict returned by grade_documents. -/
structure GradeResult where
  relevant_documents : List StateDoc
  sources : List SourceEntry
  steps : List String
deriving DecidableEq, Repr

/-- grade_documents.  `rerankerAvailable` models `self._get_reranker()`
returning an instance rather than `None`. -/
def gradeDocuments (contextFilter : List StateDoc → List StateDoc)
    (rerankerAvailable : Bool)
    (predictScores : List (String × String) → List ℚ)
    (snippet : String → String → String)
    (question : String) (rewritten : Option String)
    (queryComplexity : Option String)
    (retrievedDocuments : List StateDoc) : GradeResult :=
  if retrievedDocuments = [] then
    { relevant_documents := [], sources := [], steps := ["grade_empty"] }
  else
    let query := queryOf rewritten question
    let finalK := if queryComplexity.getD "complex" = "simple" then 2
                  else retrieval_final_k
    let docsToGrade := contextFilter retrievedDocuments
    let rerankerOutcome :=
      if rerankerAvailable ∧ docsToGrade ≠ [] then
        let docTexts := docsToGrade.map (·.content)
        let reranked := crossEncoderRerank predictScores query docTexts (some finalK)
        buildFromReranked snippet query docsToGrade reranked
      else none
    match rerankerOutcome with
    | some rm =>
        { relevant_documents := rm.1, sources := rm.2.map (·.2),
          steps := ["grade_context_filter", "grade_reranker"] }
    | none =>
        let rm := gradeThresholdPath snippet query docsToGrade finalK
        { relevant_documents := rm.1, sources := rm.2.map (·.2),
          steps := ["grade_context_filter", "grade_threshold"] }

/-! ### Intent handlers (rag/intent_handlers.py) -/

structure HandlerResult where
  answer : String
  handler_used : String
  needs_rag : Bool := false
  sources : List SourceEntry := []
deriving DecidableEq, Repr

/-- dispatch_intent_handler.  The four simple handlers are pure and embedded
verbatim; the context-aware handlers (followup, simplify, deepen) read the
conversation memory and call the language model, so their outcome is
injected as `contextOutcome`. -/
def dispatchIntentHandler (contextOutcome : String → String → HandlerResult)
    (intent query : String) : HandlerResult :=
  if intent = "greeting" then
    { answer := "Hello! How can I help you with your documents today?",
      handler_used := "handle_greeting" }
  else if intent = "gratitude" then
    { answer := "You\x27re welcome! Feel free to ask if you have more questions about your documents.",
      handler_used := "handle_gratitude" }
  else if intent = "garbage" then
    { answer := "I didn\x27t quite understand that. Could you rephrase your question about the documents?",
      handler_used := "handle_garbage" }
  else if intent = "off_topic" then
    { answer := "I\x27m designed to help you with questions about your uploaded documents. Is there something specific in your documents you\x27d like to know about?",
      handler_used := "handle_off_topic" }
  else if intent = "followup" ∨ intent = "simplify" ∨ intent = "deepen" then
    contextOutcome intent query
  else
    { answer := "", handler_used := "unknown_intent", needs_rag := true }

/-! ### Pipeline state, external world, nodes and graph
(rag/state.py, rag/nodes.py, rag/pipeline.py)

`RState` is the RAGState TypedDict.  LangGraph merges the partial dict a
node returns into the state: every field overwrites, except
`processing_steps` and `errors` which carry the `operator.add` reducer and
append; the node embeddings below apply that merge directly. -/

structure RState where
  question : String
  session_id : String := "default"
  collection_name : String := "knowledge_base"
  detected_intent : Option String := none
  intent_confidence : ℚ := 0
  query_complexity : Option String := none
  skip_rewrite : Bool := false
  is_summarization : Bool := false
  is_garbage_query : Bool := false
  rewritten_query : Option String := none
  retrieved_documents : List StateDoc := []
  relevant_documents : List StateDoc := []
  collection_empty : Bool := false
  answer : Option String := none
  sources : List SourceEntry := []
  is_grounded : Bool := false
  groundedness_score : ℚ := 0
  hallucination_details : Option String := none
  fast_groundedness_score : ℚ := 0
  skip_llm_hallucination_check : Bool := false
  iteration : ℕ := 0
  max_iterations : ℕ := 2
  rewrite_count : ℕ := 0
  processing_steps : List String := []
deriving DecidableEq, Repr

/-- create_initial_state. -/
def createInitialState (question sessionId collectionName : String)
    (maxIter : ℕ) : RState :=
  { question := question, session_id := sessionId,
    collection_name := collectionName, max_iterations := maxIter }

/-- Every external capability the pipeline awaits, bundled.  Each field
stands for one collaborator call site:
- `layer1Result` — the semantic exemplar layer (FastEmbed similarity);
  `none` means low confidence or disabled;
- `layer2Result` — the LLM intent fallback;
- `hasHistory` — whether `memory.get_history(session_id, limit=1)` is
  non-empty;
- `contextOutcome` — the context-aware intent handlers (memory + LLM);
- `vectorSearch` — `vectorstore.similarity_search_with_score` (query,
  collection, k); an exception is modelled by an empty result;
- `getScores` / `bmIndices` — the rank-bm25 scorer and the lexical-index
  singleton state;
- `collectionCount` — `get_collection_info(collection)["count"]`;
- `allChunks` — `get_all_chunks(collection, limit=500)`;
- `llmRewrite` / `llmGenerate` / `llmVerify` — the language-model replies to
  the rewrite, generation and hallucination prompts, indexed by the attempt
  counter current at the call;
- `llmStream` — the chunk sequence `llm.astream` yields during streaming;
- `contextFilter` / `rerankerAvailable` / `predictScores` / `snippet` — see
  `gradeDocuments`. -/
structure Oracle where
  layer1Result : String → Option (String × ℚ) := fun _ => none
  layer2Result : String → String × ℚ := fun _ => ("question", 0.5)
  hasHistory : Bool := false
  contextOutcome : String → String → HandlerResult :=
    fun i _ => { answer := "", handler_used := i, needs_rag := true }
  vectorSearch : String → String → ℕ → List (Doc × ℚ) := fun _ _ _ => []
  getScores : BMGetScores := fun corpus _ => corpus.map (fun _ => 0)
  bmIndices : BMIndices := fun _ => none
  collectionCount : String → Option ℕ := fun _ => none
  allChunks : String → List Doc := fun _ => []
  llmRewrite : ℕ → String := fun _ => ""
  llmGenerate : ℕ → String := fun _ => ""
  llmVerify : ℕ → String := fun _ => ""
  llmStream : List String := []
  contextFilter : List StateDoc → List StateDoc := fun docs => docs
  rerankerAvailable : Bool := false
  predictScores : List (String × String) → List ℚ := fun _ => []
  snippet : String → String → String := fun _ c => c

/-- IntentRouter.classify: Layer 0 hard rules, then the semantic layer, then
the LLM fallback (the pipeline always passes an llm). -/
def routerClassify (o : Oracle) (query : String) : String × ℚ :=
  match layer0HardRules query with
  | some r => r
  | none =>
      match o.layer1Result query with
      | some r => r
      | none => o.layer2Result query

/-- The intent/confidence pair classify_intent stores: the router result,
downgraded to ("question", 1.0) for conversation-dependent intents when the
session has no history (the history probe only runs for a truthy
session_id). -/
def classifyOutcome (o : Oracle) (question sessionId : String) : String × ℚ :=
  let r := routerClassify o question
  let hasHistoryChecked := if sessionId ≠ "" then o.hasHistory else false
  if (r.1 = "followup" ∨ r.1 = "simplify" ∨ r.1 = "deepen") ∧ ¬hasHistoryChecked then
    ("question", 1)
  else r

/-- classify_intent node. -/
def classifyIntentNode (o : Oracle) (st : RState) : RState :=
  let r := classifyOutcome o st.question st.session_id
  { st with
    detected_intent := some r.1, intent_confidence := r.2,
            processing_steps := st.processing_steps ++ ["classify_intent"] }

/-- handle_non_rag_intent node (non-exception path). -/
def handleNonRagIntentNode (o : Oracle) (st : RState) : RState :=
  let intent := st.detected_intent.getD "unknown"
  let result := dispatchIntentHandler o.contextOutcome intent st.question
  if result.needs_rag then
    { st with
      answer := some "I don\x27t have a previous answer to work with. Could you ask a specific question about your documents first?",
      sources := [], is_grounded := true, groundedness_score := 1,
      processing_steps := st.processing_steps ++ [result.handler_used ++ "_no_context"] }
  else
    { st with
      answer := some result.answer, sources := result.sources,
      is_grounded := true, groundedness_score := 1,
      processing_steps := st.processing_steps ++ [result.handler_used] }

/-- route_query node: heuristic complexity, no model call. -/
def routeQueryNode (st : RState) : RState :=
  let question := strLower st.question
  let isComplex :=
    (["compare", "contrast", "vs", "difference"].any (fun p => strContains question p))
    || (question.toList.filter (· = '?')).length > 1
  if isComplex then
    { st with
      query_complexity := some "complex", skip_rewrite := false,
      processing_steps := st.processing_steps ++ ["route_query_fast"] }
  else
    { st with
      query_complexity := some "simple", skip_rewrite := true,
      processing_steps := st.processing_steps ++ ["route_query_fast"] }

/-- rewrite_query node. -/
def rewriteQueryNode (o : Oracle) (st : RState) : RState :=
  { st with
    rewritten_query := some (pyStrip (o.llmRewrite st.rewrite_count)),
    rewrite_count := st.rewrite_count + 1,
    processing_steps := st.processing_steps ++ ["query_rewrite"] }

/-- retrieve node: hybrid search with parent expansion, vector-only fallback
when the hybrid path yields nothing, then the empty-collection probe. -/
def retrieveNode (o : Oracle) (st : RState) : RState :=
  let query := queryOf st.rewritten_query st.question
  let initialK := retrieval_initial_k
  let hybridResults := searchWithParentExpansion o.vectorSearch o.getScores
    o.bmIndices query st.collection_name initialK initialK
  let results :=
    if hybridResults = [] then
      expandParents (o.vectorSearch query st.collection_name initialK)
    else hybridResults
  let collectionEmpty :=
    if results = [] then
      match o.collectionCount st.collection_name with
      | none => true
      | some n => n = 0
    else false
  let retrievedDocuments := results.map (fun p =>
    { content := p.1.content, meta := p.1.meta,
      relevance_score := p.2 * 100 : StateDoc })
  { st with
    retrieved_documents := retrievedDocuments,
    collection_empty := collectionEmpty,
    processing_steps := st.processing_steps ++ ["retrieve_hybrid"] }

/-- Ascending lexicographic comparison of (page, parent_index, child_index)
keys. -/
def tripleLe (a b : ℕ × ℕ × ℕ) : Bool :=
  decide (a.1 < b.1) || (decide (a.1 = b.1) &&
    (decide (a.2.1 < b.2.1) || (decide (a.2.1 = b.2.1) && decide (a.2.2 ≤ b.2.2))))

/-- retrieve_sequential node: all chunks in page order, deduplicated by
parent, every document scored 100. -/
def retrieveSequentialNode (o : Oracle) (st : RState) : RState :=
  let allDocs := o.allChunks st.collection_name
  if allDocs = [] then
    { st with
      retrieved_documents := [], collection_empty := true,
      is_summarization := true,
      processing_steps := st.processing_steps ++ ["retrieve_sequential_empty"] }
  else
    let sortKey := fun (d : Doc) =>
      (d.meta.page.getD 0, d.meta.parentIdx.getD 0, d.meta.childIdx.getD 0)
    let sorted := stableSortG (fun y x => tripleLe (sortKey y) (sortKey x)) allDocs
    let uniqueDocs := (sorted.foldl
      (fun (acc : List StateDoc × List String) doc =>
        match doc.meta.parentId with
        | some pid =>
            if acc.2.contains pid then acc
            else (acc.1 ++ [{ content := doc.meta.parentContext.getD doc.content,
                              meta := doc.meta, relevance_score := 100 }],
                  acc.2 ++ [pid])
        | none => (acc.1 ++ [{ content := doc.content, meta := doc.meta,
                               relevance_score := 100 }], acc.2))
      ([], [])).1
    { st with
      retrieved_documents := uniqueDocs, collection_empty := false,
      is_summarization := true,
      processing_steps := st.processing_steps ++ ["retrieve_sequential"] }

/-- grade_documents node. -/
def gradeDocumentsNode (o : Oracle) (st : RState) : RState :=
  let r := gradeDocuments o.contextFilter o.rerankerAvailable o.predictScores
    o.snippet st.question st.rewritten_query st.query_complexity
    st.retrieved_documents
  { st with
    relevant_documents := r.relevant_documents, sources := r.sources,
    processing_steps := st.processing_steps ++ r.steps }

/-- generate node: the prompt (standard for iteration 0, retry prompt
otherwise) goes to the external model; the stripped reply becomes the
answer. -/
def generateNode (o : Oracle) (st : RState) : RState :=
  { st with
    answer := some (pyStrip (o.llmGenerate st.iteration)),
    processing_steps := st.processing_steps ++ ["generate"] }

/-- check_hallucination node. -/
def checkHallucinationNode (o : Oracle) (st : RState) : RState :=
  let r := checkHallucination
    { relevant_documents := st.relevant_documents,
      query_complexity := st.query_complexity,
      answer := st.answer.getD "", iteration := st.iteration }
    (o.llmVerify st.iteration)
  { st with
    is_grounded := r.is_grounded,
    groundedness_score := r.groundedness_score,
    fast_groundedness_score := r.fast_groundedness_score,
    skip_llm_hallucination_check := r.skip_llm_hallucination_check,
    hallucination_details := r.hallucination_details,
    iteration := r.iteration,
    processing_steps := st.processing_steps ++ r.steps }

/-- save_to_memory node (the writes go to the external history store). -/
def saveToMemoryNode (st : RState) : RState :=
  { st with
    processing_steps := st.processing_steps ++ ["save_to_memory"] }

/-- handle_garbage_query node. -/
def handleGarbageQueryNode (st : RState) : RState :=
  { st with
    answer := some "I\x27m not sure I understand your question. Could you please rephrase it or ask something about the documents?",
    sources := [], is_grounded := true, groundedness_score := 1,
    processing_steps := st.processing_steps ++ ["handle_garbage_query"] }

/-! Routing predicates (rag/nodes.py, module level). -/

/-- needs_rag. -/
def needsRag (st : RState) : String :=
  if st.detected_intent = some "question" ∨ st.detected_intent = some "command"
  then "rag" else "no_rag"

/-- should_rewrite. -/
def shouldRewriteDecision (st : RState) : String :=
  if st.skip_rewrite then "retrieve" else "rewrite"

/-- has_relevant_docs. -/
def hasRelevantDocs (st : RState) : String :=
  if st.rewrite_count ≥ st.max_iterations then "generate"
  else if st.collection_empty then "generate"
  else if st.relevant_documents ≠ [] then "generate"
  else "rewrite"

/-- should_retry. -/
def shouldRetry (st : RState) : String :=
  if st.is_grounded then "finish"
  else if st.iteration ≥ st.max_iterations then "finish"
  else "retry"

/-- The graph nodes of RAGPipeline._build_graph. -/
inductive GNode
  | classifyIntentN | handleNonRagN | routeQueryN | rewriteQueryN
  | retrieveHybridN | retrieveSequentialN | gradeDocumentsN | generateN
  | checkHallucinationN | saveToMemoryN | handleGarbageN | endN
deriving DecidableEq, Repr

open GNode

/-- Run one node on the state. -/
def runNode (o : Oracle) : GNode → RState → RState
  | classifyIntentN, st => classifyIntentNode o st
  | handleNonRagN, st => handleNonRagIntentNode o st
  | routeQueryN, st => routeQueryNode st
  | rewriteQueryN, st => rewriteQueryNode o st
  | retrieveHybridN, st => retrieveNode o st
  | retrieveSequentialN, st => retrieveSequentialNode o st
  | gradeDocumentsN, st => gradeDocumentsNode o st
  | generateN, st => generateNode o st
  | checkHallucinationN, st => checkHallucinationNode o st
  | saveToMemoryN, st => saveToMemoryNode st
  | handleGarbageN, st => handleGarbageQueryNode st
  | endN, st => st

/-- The edges of the compiled graph; conditional edges evaluate their
predicate on the state the node just produced.  The "summarize" and
"garbage" targets of the route_query conditional edge are present in the
edge map but `should_rewrite` never returns those labels. -/
def nextNode : GNode → RState → GNode
  | classifyIntentN, st => if needsRag st = "rag" then routeQueryN else handleNonRagN
  | handleNonRagN, _ => endN
  | routeQueryN, st =>
      if shouldRewriteDecision st = "rewrite" then rewriteQueryN
      else if shouldRewriteDecision st = "retrieve" then retrieveHybridN
      else if shouldRewriteDecision st = "summarize" then retrieveSequentialN
      else handleGarbageN
  | handleGarbageN, _ => endN
  | rewriteQueryN, _ => retrieveHybridN
  | retrieveHybridN, _ => gradeDocumentsN
  | retrieveSequentialN, _ => gradeDocumentsN
  | gradeDocumentsN, st =>
      if hasRelevantDocs st = "generate" then generateN else rewriteQueryN
  | generateN, _ => checkHallucinationN
  | checkHallucinationN, st =>
      if shouldRetry st = "retry" then generateN else saveToMemoryN
  | saveToMemoryN, _ => endN
  | endN, _ => endN

/-- Execute the graph from a node with the given fuel; with
max_iterations = 2 the longest possible run visits fewer than 30 nodes, so
the canonical fuel of `aqueryRun` is never exhausted. -/
def runGraph (o : Oracle) : ℕ → GNode → RState → RState
  | 0, _, st => st
  | _ + 1, endN, st => st
  | fuel + 1, n, st =>
      let st2 := runNode o n st
      runGraph o fuel (nextNode n st2) st2

/-- RAGPipeline.aquery: run the graph from classify_intent on the initial
state. -/
def aqueryRun (o : Oracle) (question sessionId collectionName : String) : RState :=
  runGraph o 30 classifyIntentN
    (createInitialState question sessionId collectionName max_retries)

/-! ### Streaming (RAGPipeline.astream, rag/pipeline.py)

One streamed query produces a finite event sequence.  The `done` payload
keys differ slightly between the return paths in the source (some omit
`query_complexity` / `detected_intent`); an omitted key is modelled as
`none`. -/

inductive SEvent
  | phase (name : String)
  | sources (entries : List SourceEntry)
  | token (content : String)
  | done (isGrounded : Bool) (iterations : ℕ)
      (complexity : Option String) (intent : Option String)
  | errorEv (message : String)
deriving DecidableEq, Repr

def SEvent.isSources : SEvent → Bool
  | SEvent.sources _ => true
  | _ => false

def SEvent.isToken : SEvent → Bool
  | SEvent.token _ => true
  | _ => false

def SEvent.isDone : SEvent → Bool
  | SEvent.done _ _ _ _ => true
  | _ => false

/-- RAGPipeline.astream on the non-exception path: the full event list, in
emission order.  The three return paths of the source are reproduced: the
non-RAG branch, the (unreachable in practice) garbage-complexity branch, and
the main retrieval/generation branch with true token streaming. -/
def astreamEvents (o : Oracle) (question sessionId collectionName : String) :
    List SEvent :=
  let ev0 := [SEvent.phase "searching"]
  let st0 := createInitialState question sessionId collectionName max_retries
  let st1 := classifyIntentNode o st0
  let intent := st1.detected_intent.getD "question"
  if needsRag st1 = "no_rag" then
    let st2 := handleNonRagIntentNode o st1
    ev0 ++ [SEvent.sources []] ++ [SEvent.phase "generating"]
      ++ (pySplitWs (st2.answer.getD "")).map (fun w => SEvent.token (w ++ " "))
      ++ [SEvent.done true 0 none (some intent)]
  else
    let st2 := routeQueryNode st1
    if st2.query_complexity = some "garbage" then
      let st3 := handleGarbageQueryNode st2
      ev0 ++ [SEvent.sources []] ++ [SEvent.phase "generating"]
        ++ (pySplitWs (st3.answer.getD "")).map (fun w => SEvent.token (w ++ " "))
        ++ [SEvent.done true 0 none none]
    else
      let st3 :=
        if st2.is_summarization then retrieveSequentialNode o st2
        else
          let st2a := if !st2.skip_rewrite then rewriteQueryNode o st2 else st2
          retrieveNode o st2a
      let st4 := gradeDocumentsNode o st3
      let tokens := o.llmStream.filter (· ≠ "")
      let fullAnswer := joinSep "" tokens
      let st5 := { st4 with answer := some fullAnswer }
      let st6 := checkHallucinationNode o st5
      ev0 ++ [SEvent.sources st4.sources] ++ [SEvent.phase "generating"]
        ++ tokens.map SEvent.token
        ++ [SEvent.done st6.is_grounded st6.iteration st6.query_complexity
              st6.detected_intent]

/-! ## Claims -/

/-- The max examined by the simple/high-confidence skip branch:
`max((d.get("relevance_score", 0) for d in state["relevant_documents"]),
default=0)`. -/
def topRelevanceScore (st : HCheckState) : ℚ :=
  pyMax (st.relevant_documents.map (·.relevance_score)) 0

/-- C10: with no relevant documents, check_hallucination returns the
documented skip dict — grounded, both scores 1.0, the skip flag set, the
iteration counter incremented — and is independent of the language model
reply, so neither the fast check nor a model call can influence it. -/
theorem c10_no_documents_skips_all_checks (st : HCheckState) (resp : String)
    (h : st.relevant_documents = []) :
    checkHallucination st resp =
      { is_grounded := true, groundedness_score := 1,
        fast_groundedness_score := 1, skip_llm_hallucination_check := true,
        hallucination_details := none, iteration := st.iteration + 1,
        steps := ["hallucination_skip"] }
    ∧ ∀ resp2 : String, checkHallucination st resp2 = checkHallucination st resp := by
  refine ⟨?_, ?_⟩
  · simp [checkHallucination, h]
  · intro resp2
    simp [checkHallucination, h]

theorem c10_no_documents_skips_all_checks_witness :
    checkHallucination { answer := "anything", iteration := 1 } "GROUNDED: no" =
      { is_grounded := true, groundedness_score := 1,
        fast_groundedness_score := 1, skip_llm_hallucination_check := true,
        hallucination_details := none, iteration := 2,
        steps := ["hallucination_skip"] }
    ∧ ∀ resp2 : String,
        checkHallucination { answer := "anything", iteration := 1 } resp2
          = checkHallucination { answer := "anything", iteration := 1 } "GROUNDED: no" :=
  c10_no_documents_skips_all_checks
    { answer := "anything", iteration := 1 } "GROUNDED: no" rfl

/-- C4: for a simple-complexity state whose top relevant-document score is at
least 70 (percent), check_hallucination takes the fast-skip branch: grounded,
skip flag set, the top score divided by 100 as groundedness score, and the
result does not depend on the language model reply (no model groundedness
call). -/
theorem c4_simple_high_confidence_skips_verifier (st : HCheckState) (resp : String)
    (hsimple : st.query_complexity = some "simple")
    (htop : topRelevanceScore st ≥ 70) :
    (checkHallucination st resp).is_grounded = true
    ∧ (checkHallucination st resp).skip_llm_hallucination_check = true
    ∧ (checkHallucination st resp).groundedness_score = topRelevanceScore st / 100
    ∧ (checkHallucination st resp).steps = ["hallucination_skip_simple_highconf"]
    ∧ ∀ resp2 : String, checkHallucination st resp2 = checkHallucination st resp := by
  have hne : st.relevant_documents ≠ [] := by
    intro h
    rw [topRelevanceScore, h] at htop
    simp [pyMax] at htop
    linarith
  have htop2 : (70 : ℚ) ≤ pyMax (st.relevant_documents.map (·.relevance_score)) 0 := htop
  refine ⟨?_, ?_, ?_, ?_, ?_⟩ <;>
    simp [checkHallucination, hne, hsimple, topRelevanceScore, htop2]

theorem c4_simple_high_confidence_skips_verifier_witness :
    topRelevanceScore
      { relevant_documents := [{ content := "chunk", relevance_score := 82 }],
        query_complexity := some "simple", answer := "a" } ≥ 70
    ∧ (checkHallucination
        { relevant_documents := [{ content := "chunk", relevance_score := 82 }],
          query_complexity := some "simple", answer := "a" } "GROUNDED: no").is_grounded
        = true :=
  ⟨by with_unfolding_all decide,
   (c4_simple_high_confidence_skips_verifier
      { relevant_documents := [{ content := "chunk", relevance_score := 82 }],
        query_complexity := some "simple", answer := "a" } "GROUNDED: no" rfl
      (by with_unfolding_all decide)).1⟩

/-- C1 as stated is false: in the ambiguous band, a verifier reply in which
no GROUNDED/SCORE line can be parsed retains the fast score as the
groundedness score but yields is_grounded = false, because the code sets
`is_grounded = ("grounded: yes" in analysis.lower())`.  Concrete input: the
reply "I cannot assess this." on an answer with fast score 2/5 ∈ [0.3, 0.8).
The claim asserts is_grounded = true there. -/
theorem c1_counterexample :
    (0.3 ≤ (checkHallucination
        { relevant_documents := [{ content := "the capital of france is paris",
                                   relevance_score := 50 }],
          query_complexity := some "complex",
          answer := "paris is the capital of germany" }
        "I cannot assess this.").fast_groundedness_score
      ∧ (checkHallucination
        { relevant_documents := [{ content := "the capital of france is paris",
                                   relevance_score := 50 }],
          query_complexity := some "complex",
          answer := "paris is the capital of germany" }
        "I cannot assess this.").fast_groundedness_score < 0.8)
    ∧ (checkHallucination
        { relevant_documents := [{ content := "the capital of france is paris",
                                   relevance_score := 50 }],
          query_complexity := some "complex",
          answer := "paris is the capital of germany" }
        "I cannot assess this.").groundedness_score
      = (checkHallucination
        { relevant_documents := [{ content := "the capital of france is paris",
                                   relevance_score := 50 }],
          query_complexity := some "complex",
          answer := "paris is the capital of germany" }
        "I cannot assess this.").fast_groundedness_score
    ∧ (checkHallucination
        { relevant_documents := [{ content := "the capital of france is paris",
                                   relevance_score := 50 }],
          query_complexity := some "complex",
          answer := "paris is the capital of germany" }
        "I cannot assess this.").is_grounded = false := by
  with_unfolding_all decide

/-- When no SCORE value can be parsed from the reply — no SCORE line at
all, or a SCORE line whose value is not a float literal — the fast score is
retained (the `except: pass` path of check_hallucination). -/
theorem parseScoreField_retains_fast (analysis : String) (fastScore : ℚ)
    (h : scoreFieldUnparseable analysis = true) :
    parseScoreField analysis fastScore = fastScore := by
  unfold scoreFieldUnparseable at h
  unfold parseScoreField
  cases hc : strContains analysis "SCORE:" with
  | false => rw [if_neg (by simp)]
  | true =>
      rw [if_pos rfl]
      rw [hc] at h
      simp only [Bool.not_true, Bool.false_or] at h
      rcases hh : ((pySplitOn analysis "\n").filter
          (fun l => strContains l "SCORE:")).head? with _ | scoreLine
      · rfl
      · rw [hh] at h
        dsimp only at h ⊢
        rcases hg : (pySplitOn scoreLine ":").get? 1 with _ | seg
        · rfl
        · rw [hg] at h
          dsimp only at h ⊢
          rw [Option.isNone_iff_eq_none.mp h]
          rfl

/-- C1 amended: in the ambiguous fast-score band, when the model reply is
malformed — it contains no "grounded: yes" verdict (so the GROUNDED line
cannot be read as affirmative) and no parseable SCORE line (the line is
missing, or its value fails float conversion) — check_hallucination retains
the fast score as groundedness_score, but reports is_grounded = false, not
true; the reply is not blocked, it proceeds with this verdict. -/
theorem c1_malformed_reply_keeps_fast_score_but_not_grounded
    (st : HCheckState) (resp : String)
    (hne : st.relevant_documents ≠ [])
    (hns : st.query_complexity.getD "complex" = "simple" → topRelevanceScore st < 70)
    (hlo : 0.3 ≤ fastGroundednessCheck st.answer (st.relevant_documents.map (·.content)))
    (hhi : fastGroundednessCheck st.answer (st.relevant_documents.map (·.content)) < 0.8)
    (hyes : strContains (strLower (pyStrip resp)) "grounded: yes" = false)
    (hscore : scoreFieldUnparseable (pyStrip resp) = true) :
    (checkHallucination st resp).is_grounded = false
    ∧ (checkHallucination st resp).groundedness_score
        = fastGroundednessCheck st.answer (st.relevant_documents.map (·.content))
    ∧ (checkHallucination st resp).skip_llm_hallucination_check = false := by
  have hmain : checkHallucination st resp = checkHallucinationMain st resp := by
    rw [checkHallucination]
    rw [if_neg hne]
    by_cases hs : st.query_complexity.getD "complex" = "simple"
    · rw [if_pos hs]
      rw [if_neg (by simpa [topRelevanceScore, not_le] using hns hs)]
    · rw [if_neg hs]
  rw [hmain, checkHallucinationMain]
  rw [if_neg (by simpa [not_le] using hhi), if_neg (by simpa [not_lt] using hlo)]
  refine ⟨by simpa using hyes, ?_, rfl⟩
  exact parseScoreField_retains_fast (pyStrip resp) _ hscore

theorem c1_malformed_reply_keeps_fast_score_but_not_grounded_witness :
    (checkHallucination
      { relevant_documents := [{ content := "the capital of france is paris",
                                 relevance_score := 50 }],
        query_complexity := some "complex",
        answer := "paris is the capital of germany" }
      "GROUNDED: maybe\nSCORE: N/A\nISSUES: none").is_grounded = false
    ∧ (checkHallucination
      { relevant_documents := [{ content := "the capital of france is paris",
                                 relevance_score := 50 }],
        query_complexity := some "complex",
        answer := "paris is the capital of germany" }
      "GROUNDED: maybe\nSCORE: N/A\nISSUES: none").groundedness_score
        = fastGroundednessCheck "paris is the capital of germany"
            ["the capital of france is paris"]
    ∧ (checkHallucination
      { relevant_documents := [{ content := "the capital of france is paris",
                                 relevance_score := 50 }],
        query_complexity := some "complex",
        answer := "paris is the capital of germany" }
      "GROUNDED: maybe\nSCORE: N/A\nISSUES: none").skip_llm_hallucination_check = false :=
  c1_malformed_reply_keeps_fast_score_but_not_grounded
    { relevant_documents := [{ content := "the capital of france is paris",
                               relevance_score := 50 }],
      query_complexity := some "complex",
      answer := "paris is the capital of germany" }
    "GROUNDED: maybe\nSCORE: N/A\nISSUES: none"
    (by with_unfolding_all decide)
    (by intro h; exact absurd h (by with_unfolding_all decide))
    (by with_unfolding_all decide)
    (by with_unfolding_all decide)
    (by with_unfolding_all decide)
    (by with_unfolding_all decide)

/-- C7 as stated is false: the Layer 0 stopword set does not contain the
RAG-system tokens — "context" is absent from `STOPWORD_SET` (those tokens
appear only in the groundedness checker's separate stopword list) — and
consequently the four-token query "what is the context", all of whose tokens
come from the augmented set the claim describes, is not classified as
garbage by the hard rules (they return no verdict for it). -/
theorem c7_counterexample :
    ¬ ("context" ∈ STOPWORD_SET)
    ∧ layer0HardRules "what is the context" = none := by
  constructor
  · with_unfolding_all decide
  · with_unfolding_all decide

/-- Every verdict Layer 0 produces is a garbage verdict. -/
theorem layer0HardRules_garbage (q : String) (r : String × ℚ)
    (h : layer0HardRules q = some r) : r.1 = "garbage" := by
  unfold layer0HardRules at h
  dsimp only at h
  split_ifs at h <;>
    first
      | exact Option.noConfusion h
      | (cases h; rfl)

/-- C7 amended: the Layer 0 stopword set is the plain English function-word
set, without the RAG-system tokens (those live only in the groundedness
checker's stopword list); a query with at least one and at most 5 word
tokens, every one of which comes from `STOPWORD_SET`, is classified as
garbage by the hard rules (by the density rule, or by an earlier garbage
rule that fires first). -/
theorem c7_all_stopword_short_queries_are_garbage (q : String)
    (hne : layer0Words q ≠ [])
    (hlen : (layer0Words q).length ≤ 5)
    (hall : ∀ w ∈ layer0Words q, w ∈ STOPWORD_SET) :
    (layer0HardRules q).map Prod.fst = some "garbage" := by
  have hcount : ((layer0Words q).filter (fun w => STOPWORD_SET.contains w)).length
      = (layer0Words q).length := by
    congr 1
    rw [List.filter_eq_self]
    intro w hw
    simpa using hall w hw
  have hpos : 0 < (layer0Words q).length := List.length_pos.mpr hne
  have hrat : (((layer0Words q).filter (fun w => STOPWORD_SET.contains w)).length : ℚ)
      / ((layer0Words q).length : ℚ) > 0.9 := by
    rw [hcount, div_self (by positivity)]
    norm_num
  unfold layer0HardRules
  dsimp only
  have hw : lowerAlphaWords (strLower (pyStrip q)) = layer0Words q := rfl
  split_ifs with h1 h2 h3 h4 h5
  case pos => rfl
  case pos => rfl
  case pos => rfl
  case pos => rfl
  case pos => rfl
  case neg =>
    exact absurd ⟨by rw [hw]; exact hne, by rw [hw]; exact hrat,
      by rw [hw]; exact hlen⟩ h4

theorem c7_all_stopword_short_queries_are_garbage_witness :
    layer0Words "is it the the" ≠ []
    ∧ (layer0Words "is it the the").length ≤ 5
    ∧ (layer0HardRules "is it the the").map Prod.fst = some "garbage" :=
  ⟨by with_unfolding_all decide, by with_unfolding_all decide,
   c7_all_stopword_short_queries_are_garbage "is it the the"
     (by with_unfolding_all decide) (by with_unfolding_all decide)
     (by with_unfolding_all decide)⟩

/-- C9: lexical search on a collection with no index — missing, or just
cleared — returns the empty list (`_bm25_search` is total in the embedding,
mirroring that the Python function raises nothing on this path). -/
theorem c9_missing_index_search_empty (getScores : BMGetScores)
    (idx : BMIndices) (query c : String) (k : ℕ) :
    (idx c = none → bm25Search getScores idx query c k = [])
    ∧ bm25Search getScores (clearBM25Index idx c) query c k = [] := by
  constructor
  · intro h
    simp [bm25Search, h]
  · rcases h : idx c with _ | docs
    · have hcl : clearBM25Index idx c = idx := by
        unfold clearBM25Index
        rw [h]
      rw [hcl]
      simp [bm25Search, h]
    · unfold clearBM25Index
      rw [h]
      simp [bm25Search]

theorem c9_missing_index_search_empty_witness :
    bm25Search (fun corpus _ => corpus.map (fun _ => (1 : ℚ)))
      (fun _ => none) "what is cap" "chat_123" 5 = []
    ∧ bm25Search (fun corpus _ => corpus.map (fun _ => (1 : ℚ)))
      (clearBM25Index
        (buildBM25Index (fun _ => none) "chat_123" [{ content := "cap theorem" }])
        "chat_123") "what is cap" "chat_123" 5 = [] :=
  ⟨(c9_missing_index_search_empty (fun corpus _ => corpus.map (fun _ => (1 : ℚ)))
      (fun _ => none) "what is cap" "chat_123" 5).1 rfl,
   (c9_missing_index_search_empty (fun corpus _ => corpus.map (fun _ => (1 : ℚ)))
      (buildBM25Index (fun _ => none) "chat_123" [{ content := "cap theorem" }])
      "what is cap" "chat_123" 5).2⟩

/-- A scoring pass of the fusion reads only the document component of each
ranked pair, never the score, so transforming the scores leaves it
unchanged. -/
theorem rrfPass_ignores_scores (rrfK : ℕ) (f : Doc × ℚ → ℚ) (l : List (Doc × ℚ))
    (acc : List (String × ℚ) × List (String × Doc)) :
    rrfPass rrfK (l.map (fun p => (p.1, f p))) acc = rrfPass rrfK l acc := by
  unfold rrfPass
  rw [List.enum_map, List.foldl_map]
  congr 1

/-- C5: reciprocal rank fusion is rank-only — multiplying every score of
either input list by a positive constant changes neither the fused order
nor the fused scores (the outputs are equal lists). -/
theorem c5_rrf_fusion_rank_only (rrfK k : ℕ) (vec bm : List (Doc × ℚ))
    (c c' : ℚ) (hc : 0 < c) (hc' : 0 < c') :
    rrfFusion rrfK (vec.map (fun p => (p.1, c * p.2)))
        (bm.map (fun p => (p.1, c' * p.2))) k
      = rrfFusion rrfK vec bm k := by
  unfold rrfFusion
  rw [rrfPass_ignores_scores rrfK (fun p => c * p.2),
      rrfPass_ignores_scores rrfK (fun p => c' * p.2)]

theorem c5_rrf_fusion_rank_only_witness :
    (0 : ℚ) < 2 ∧ (0 : ℚ) < 3
    ∧ rrfFusion 60
        ([({ content := "load balancers" }, 0.9),
          ({ content := "cap theorem is" }, 0.4)].map (fun p => (p.1, 2 * p.2)))
        ([({ content := "cap theorem is" }, 5)].map (fun p => (p.1, 3 * p.2))) 10
      = rrfFusion 60
        [({ content := "load balancers" }, 0.9),
         ({ content := "cap theorem is" }, 0.4)]
        [({ content := "cap theorem is" }, 5)] 10 :=
  ⟨by norm_num, by norm_num,
   c5_rrf_fusion_rank_only 60 10
     [({ content := "load balancers" }, 0.9), ({ content := "cap theorem is" }, 0.4)]
     [({ content := "cap theorem is" }, 5)] 2 3 (by norm_num) (by norm_num)⟩

/-- C6 as stated is false: removal goes by doc_id, so when an added document
shares a doc_id with a pre-existing one, `remove` deletes the old document
too and the search results change.  Concrete input: collection "c" holds one
document with doc_id "x" and content "apple pie"; add a document with the
same doc_id "x" and content "banana"; remove the added set's doc_ids
(["x"]); the search for "apple" that previously returned the apple-pie
document now returns nothing (the whole index is gone). -/
theorem c6_counterexample :
    bm25Search
      (fun corpus q => corpus.map
        (fun toks => ((q.filter (fun t => toks.contains t)).length : ℚ)))
      (removeFromBM25Index
        (addToBM25Index
          (buildBM25Index (fun _ => none) "c"
            [{ content := "apple pie", meta := { docId := some "x" } }])
          "c" [{ content := "banana", meta := { docId := some "x" } }])
        "c"
        ([({ content := "banana", meta := { docId := some "x" } } : Doc)].filterMap
          (fun d => d.meta.docId)))
      "apple" "c" 5
    ≠ bm25Search
      (fun corpus q => corpus.map
        (fun toks => ((q.filter (fun t => toks.contains t)).length : ℚ)))
      (buildBM25Index (fun _ => none) "c"
        [{ content := "apple pie", meta := { docId := some "x" } }])
      "apple" "c" 5 := by
  with_unfolding_all decide

/-- `_bm25_search` reads the index state only at the searched collection. -/
theorem bm25Search_eq_of_lookup_eq (getScores : BMGetScores)
    (idx idx2 : BMIndices) (c : String) (h : idx2 c = idx c)
    (query : String) (k : ℕ) :
    bm25Search getScores idx2 query c k = bm25Search getScores idx query c k := by
  unfold bm25Search
  rw [h]

/-- C6 amended: `add(C, X)` followed by `remove(C, doc_ids of X)` restores
lexical search on C, provided every document of X carries a doc_id and no
document already indexed under C has a doc_id among X's doc_ids; when ids
collide, removal also deletes the pre-existing documents (see the
counterexample).  The hypothesis `idx c ≠ some []` is an invariant of the
index map (an empty collection is never stored). -/
theorem c6_add_remove_roundtrip (getScores : BMGetScores) (idx : BMIndices)
    (c : String) (X : List Doc)
    (hX : X.all (fun d => d.meta.docId.isSome) = true)
    (hfresh : ((idx c).getD []).all (fun d =>
        match d.meta.docId with
        | some i => !(X.filterMap (fun d => d.meta.docId)).contains i
        | none => true) = true)
    (hinv : idx c ≠ some []) :
    ∀ (query : String) (k : ℕ),
      bm25Search getScores
        (removeFromBM25Index (addToBM25Index idx c X) c
          (X.filterMap (fun d => d.meta.docId))) query c k
      = bm25Search getScores idx query c k := by
  intro query k
  set ids := X.filterMap (fun d => d.meta.docId) with hids
  set keep : Doc → Bool := fun d =>
    match d.meta.docId with
    | some i => !ids.contains i
    | none => true with hkeep
  have hXgone : X.filter keep = [] := by
    rw [List.filter_eq_nil_iff]
    intro d hd
    obtain ⟨i, hi⟩ := Option.isSome_iff_exists.mp
      (by simpa using (List.all_eq_true.mp hX d hd))
    have hmem : i ∈ ids := by
      rw [hids]
      exact List.mem_filterMap.mpr ⟨d, hd, hi⟩
    simp only [hkeep]
    simp [hi]
    exact hmem
  refine bm25Search_eq_of_lookup_eq getScores idx _ c ?_ query k
  rcases hE : idx c with _ | E
  · by_cases hXe : X = []
    · have hadd : addToBM25Index idx c X = idx := by
        unfold addToBM25Index
        rw [hE]
        dsimp only
        unfold buildBM25Index
        rw [if_pos hXe]
      rw [hadd]
      unfold removeFromBM25Index
      rw [hE]
      dsimp only
      exact hE
    · have hadd : addToBM25Index idx c X
          = fun c0 => if c0 = c then some X else idx c0 := by
        unfold addToBM25Index
        rw [hE]
        dsimp only
        unfold buildBM25Index
        rw [if_neg hXe]
      rw [hadd]
      unfold removeFromBM25Index
      beta_reduce
      rw [if_pos rfl]
      try dsimp only
      rw [← hkeep, hXgone]
      rw [if_neg (by simp)]
      try dsimp only
      try beta_reduce
      rw [if_pos rfl]
  · have hEne : E ≠ [] := fun h => hinv (by rw [hE, h])
    have hEkeep : E.filter keep = E := by
      rw [List.filter_eq_self]
      intro d hd
      exact List.all_eq_true.mp (by simpa [hE] using hfresh) d hd
    have hEXne : E ++ X ≠ [] := by simp [hEne]
    have hadd : addToBM25Index idx c X
        = fun c0 => if c0 = c then some (E ++ X) else idx c0 := by
      unfold addToBM25Index
      rw [hE]
      dsimp only
      unfold buildBM25Index
      rw [if_neg hEXne]
    rw [hadd]
    unfold removeFromBM25Index
    beta_reduce
    rw [if_pos rfl]
    try dsimp only
    rw [← hkeep, List.filter_append, hEkeep, hXgone, List.append_nil]
    rw [if_pos hEne]
    unfold buildBM25Index
    rw [if_neg hEne]
    try dsimp only
    try beta_reduce
    rw [if_pos rfl]

theorem c6_add_remove_roundtrip_witness :
    bm25Search
      (fun corpus q => corpus.map
        (fun toks => ((q.filter (fun t => toks.contains t)).length : ℚ)))
      (removeFromBM25Index
        (addToBM25Index
          (buildBM25Index (fun _ => none) "c"
            [{ content := "apple pie", meta := { docId := some "a" } }])
          "c" [{ content := "banana", meta := { docId := some "b" } }])
        "c"
        ([({ content := "banana", meta := { docId := some "b" } } : Doc)].filterMap
          (fun d => d.meta.docId)))
      "apple" "c" 5
    = bm25Search
      (fun corpus q => corpus.map
        (fun toks => ((q.filter (fun t => toks.contains t)).length : ℚ)))
      (buildBM25Index (fun _ => none) "c"
        [{ content := "apple pie", meta := { docId := some "a" } }])
      "apple" "c" 5 :=
  c6_add_remove_roundtrip
    (fun corpus q => corpus.map
      (fun toks => ((q.filter (fun t => toks.contains t)).length : ℚ)))
    (buildBM25Index (fun _ => none) "c"
      [{ content := "apple pie", meta := { docId := some "a" } }])
    "c" [{ content := "banana", meta := { docId := some "b" } }]
    (by with_unfolding_all decide)
    (by with_unfolding_all decide)
    (by with_unfolding_all decide)
    "apple" 5

/-- A rerank fold starting from a failure stays a failure. -/
theorem rerankFoldStep_none (snippet : String → String → String) (query : String)
    (docsToGrade : List StateDoc) (reranked : List (ℕ × ℚ)) :
    reranked.foldl (rerankFoldStep snippet query docsToGrade) none = none := by
  induction reranked with
  | nil => rfl
  | cons p rest ih => simpa [rerankFoldStep] using ih

/-- Each successful rerank fold step appends exactly one relevant
document. -/
theorem rerankFold_length (snippet : String → String → String) (query : String)
    (docsToGrade : List StateDoc) (reranked : List (ℕ × ℚ)) :
    ∀ (rel0 : List StateDoc) (m0 : List (String × SourceEntry))
      (rel : List StateDoc) (m : List (String × SourceEntry)),
      reranked.foldl (rerankFoldStep snippet query docsToGrade) (some (rel0, m0))
        = some (rel, m) →
      rel.length ≤ rel0.length + reranked.length := by
  induction reranked with
  | nil =>
      intro rel0 m0 rel m h
      simp only [List.foldl_nil, Option.some.injEq, Prod.mk.injEq] at h
      rw [← h.1]
      simp
  | cons p rest ih =>
      intro rel0 m0 rel m h
      simp only [List.foldl_cons] at h
      rcases hstep : rerankFoldStep snippet query docsToGrade (some (rel0, m0)) p
        with _ | ⟨rel1, m1⟩
      · rw [hstep, rerankFoldStep_none] at h
        exact absurd h (by simp)
      · rw [hstep] at h
        have hlen : rel1.length ≤ rel0.length + 1 := by
          unfold rerankFoldStep at hstep
          rcases hget : docsToGrade.get? p.1 with _ | doc
          · rw [hget] at hstep
            exact absurd hstep (by simp)
          · rw [hget] at hstep
            simp only [Option.some.injEq, Prod.mk.injEq] at hstep
            rw [← hstep.1]
            simp
        have := ih rel1 m1 rel m h
        simp only [List.length_cons]
        omega

/-- The reranker returns at most top_k index/score pairs. -/
theorem crossEncoderRerank_length (predictScores : List (String × String) → List ℚ)
    (query : String) (documents : List String) (k : ℕ) :
    (crossEncoderRerank predictScores query documents (some k)).length ≤ k := by
  unfold crossEncoderRerank
  split
  · simp
  · simpa using List.length_take_le k _

/-- The threshold loop appends at most one document per input. -/
theorem thresholdFold_length (snippet : String → String → String) (query : String)
    (threshold : ℚ) (l : List StateDoc) :
    ∀ init : List StateDoc × List (String × SourceEntry),
      (l.foldl (thresholdFoldStep snippet query threshold) init).1.length
        ≤ init.1.length + l.length := by
  induction l with
  | nil => intro init; simp
  | cons doc rest ih =>
      intro init
      simp only [List.foldl_cons, List.length_cons]
      have hstep : (thresholdFoldStep snippet query threshold init doc).1.length
          ≤ init.1.length + 1 := by
        dsimp only [thresholdFoldStep]
        split
        · simp
        · simp
      have := ih (thresholdFoldStep snippet query threshold init doc)
      omega

/-- C3: on a non-empty retrieved set, grade_documents keeps at most 2
relevant documents for simple complexity and at most 5 otherwise — on the
reranker path because the reranker is asked for top_k = K, and on the
threshold fallback because at most the top K sorted candidates enter the
keep loop. -/
theorem c3_grade_documents_adaptive_k
    (contextFilter : List StateDoc → List StateDoc) (rerankerAvailable : Bool)
    (predictScores : List (String × String) → List ℚ)
    (snippet : String → String → String)
    (question : String) (rewritten : Option String)
    (queryComplexity : Option String) (docs : List StateDoc)
    (h : docs ≠ []) :
    (gradeDocuments contextFilter rerankerAvailable predictScores snippet
        question rewritten queryComplexity docs).relevant_documents.length
      ≤ if queryComplexity = some "simple" then 2 else 5 := by
  have hK : (if queryComplexity.getD "complex" = "simple" then 2 else retrieval_final_k)
      = if queryComplexity = some "simple" then 2 else 5 := by
    cases queryComplexity with
    | none => simp [retrieval_final_k]
    | some s =>
        by_cases hs : s = "simple" <;> simp [hs, retrieval_final_k]
  unfold gradeDocuments
  rw [if_neg h]
  dsimp only
  rw [hK]
  set K := if queryComplexity = some "simple" then 2 else 5 with hKdef
  set query := queryOf rewritten question with hq
  set docsToGrade := contextFilter docs with hd
  rcases hro : (if rerankerAvailable ∧ docsToGrade ≠ [] then
      buildFromReranked snippet query docsToGrade
        (crossEncoderRerank predictScores query (docsToGrade.map (·.content)) (some K))
    else none) with _ | rm
  · rw [hro]
    dsimp only
    unfold gradeThresholdPath
    dsimp only
    have hsorted : ((stableSortDesc (fun d => d.relevance_score) docsToGrade).take K).length
        ≤ K := by
      simpa using List.length_take_le K _
    have hfold := thresholdFold_length snippet query (relevance_threshold * 100)
      ((stableSortDesc (fun d => d.relevance_score) docsToGrade).take K) ([], [])
    simp only [List.length_nil, Nat.zero_add] at hfold
    exact le_trans hfold hsorted
  · rw [hro]
    dsimp only
    rcases rm with ⟨rel, m⟩
    by_cases hc : rerankerAvailable ∧ docsToGrade ≠ []
    · rw [if_pos hc] at hro
      unfold buildFromReranked at hro
      have hrr := rerankFold_length snippet query docsToGrade
        (crossEncoderRerank predictScores query (docsToGrade.map (·.content)) (some K))
        [] [] rel m hro
      have hck := crossEncoderRerank_length predictScores query
        (docsToGrade.map (·.content)) K
      simpa using le_trans hrr (by simpa using hck)
    · rw [if_neg hc] at hro
      exact absurd hro (by simp)

theorem c3_grade_documents_adaptive_k_witness :
    ([({ content := "chunk a", relevance_score := 50 } : StateDoc)] ≠ [])
    ∧ (gradeDocuments (fun docs => docs) false (fun _ => []) (fun _ c => c)
        "what is x" none (some "simple")
        [{ content := "chunk a", relevance_score := 50 }]).relevant_documents.length
      ≤ 2 :=
  ⟨by simp,
   by
    have := c3_grade_documents_adaptive_k (fun docs => docs) false (fun _ => [])
      (fun _ c => c) "what is x" none (some "simple")
      [{ content := "chunk a", relevance_score := 50 }] (by simp)
    simpa using this⟩

/-- One unfolding step of the graph executor. -/
theorem runGraph_succ (o : Oracle) (fuel : ℕ) (n : GNode) (st : RState) :
    runGraph o (fuel + 1) n st
      = if n = GNode.endN then st
        else runGraph o fuel (nextNode n (runNode o n st)) (runNode o n st) := by
  cases n <;> rfl

/-- C2: when intent classification lands on greeting, gratitude, garbage or
off_topic, the pipeline terminates through handle_non_rag_intent: the
terminal state has an empty source list, is_grounded = true, and its trace
contains no retrieval step (the step labels emitted by the two retrieval
nodes never appear). -/
theorem c2_non_rag_intents_skip_retrieval (o : Oracle)
    (question sessionId collectionName : String)
    (h : (classifyOutcome o question sessionId).1 ∈
        (["greeting", "gratitude", "garbage", "off_topic"] : List String)) :
    (aqueryRun o question sessionId collectionName).sources = []
    ∧ (aqueryRun o question sessionId collectionName).is_grounded = true
    ∧ ∀ s ∈ (aqueryRun o question sessionId collectionName).processing_steps,
        s ∉ (["retrieve_hybrid", "retrieve_sequential",
              "retrieve_sequential_empty"] : List String) := by
  set st0 := createInitialState question sessionId collectionName max_retries with hst0
  set st1 := classifyIntentNode o st0 with hst1
  have hq : st1.detected_intent = some (classifyOutcome o question sessionId).1 := rfl
  have hst1s : st1.processing_steps = ["classify_intent"] := rfl
  have h4 : (classifyOutcome o question sessionId).1 = "greeting"
      ∨ (classifyOutcome o question sessionId).1 = "gratitude"
      ∨ (classifyOutcome o question sessionId).1 = "garbage"
      ∨ (classifyOutcome o question sessionId).1 = "off_topic" := by
    simpa using h
  have hnorag : needsRag st1 = "no_rag" := by
    unfold needsRag
    rw [hq]
    rcases h4 with hi | hi | hi | hi <;> rw [hi] <;> decide
  have hrun : aqueryRun o question sessionId collectionName
      = handleNonRagIntentNode o st1 := by
    show runGraph o 30 GNode.classifyIntentN st0 = _
    rw [show (30 : ℕ) = 29 + 1 from rfl, runGraph_succ, if_neg (by decide)]
    have hn1 : runNode o GNode.classifyIntentN st0 = st1 := rfl
    rw [hn1]
    have hnext1 : nextNode GNode.classifyIntentN st1 = GNode.handleNonRagN := by
      show (if needsRag st1 = "rag" then GNode.routeQueryN else GNode.handleNonRagN)
          = GNode.handleNonRagN
      rw [hnorag]
      decide
    rw [hnext1]
    rw [show (29 : ℕ) = 28 + 1 from rfl, runGraph_succ, if_neg (by decide)]
    have hn2 : runNode o GNode.handleNonRagN st1 = handleNonRagIntentNode o st1 := rfl
    rw [hn2]
    have hnext2 : nextNode GNode.handleNonRagN (handleNonRagIntentNode o st1)
        = GNode.endN := rfl
    rw [hnext2]
    rw [show (28 : ℕ) = 27 + 1 from rfl, runGraph_succ, if_pos rfl]
  have main : ∀ i, st1.detected_intent = some i →
      (i = "greeting" ∨ i = "gratitude" ∨ i = "garbage" ∨ i = "off_topic") →
      (handleNonRagIntentNode o st1).sources = []
      ∧ (handleNonRagIntentNode o st1).is_grounded = true
      ∧ (handleNonRagIntentNode o st1).processing_steps
          = st1.processing_steps ++
            [(dispatchIntentHandler o.contextOutcome i st1.question).handler_used] := by
    intro i hqi hmem
    unfold handleNonRagIntentNode
    rw [hqi]
    rcases hmem with rfl | rfl | rfl | rfl <;> exact ⟨rfl, rfl, rfl⟩
  obtain ⟨hs1, hs2, hs3⟩ := main (classifyOutcome o question sessionId).1 hq h4
  rw [hrun]
  refine ⟨hs1, hs2, ?_⟩
  intro s hs
  rw [hs3, hst1s] at hs
  rcases h4 with hi | hi | hi | hi <;>
    (rw [hi] at hs
     simp only [dispatchIntentHandler] at hs
     simp at hs
     rcases hs with rfl | rfl <;> decide)

theorem c2_non_rag_intents_skip_retrieval_witness :
    (classifyOutcome
        { layer1Result := fun _ => some ("greeting", 0.9) } "hi there" "default").1
      ∈ (["greeting", "gratitude", "garbage", "off_topic"] : List String)
    ∧ (aqueryRun { layer1Result := fun _ => some ("greeting", 0.9) }
        "hi there" "default" "kb").sources = []
    ∧ (aqueryRun { layer1Result := fun _ => some ("greeting", 0.9) }
        "hi there" "default" "kb").is_grounded = true :=
  ⟨by with_unfolding_all decide,
   (c2_non_rag_intents_skip_retrieval
      { layer1Result := fun _ => some ("greeting", 0.9) } "hi there" "default" "kb"
      (by with_unfolding_all decide)).1,
   (c2_non_rag_intents_skip_retrieval
      { layer1Result := fun _ => some ("greeting", 0.9) } "hi there" "default" "kb"
      (by with_unfolding_all decide)).2.1⟩

/-- Tokens built by mapping a token constructor are neither sources nor done
events. -/
theorem token_map_ok (ws : List String) (g : String → SEvent)
    (hg : ∀ w, (g w).isSources = false ∧ (g w).isDone = false) :
    ∀ e ∈ ws.map g, e.isSources = false ∧ e.isDone = false := by
  intro e he
  obtain ⟨w, _, rfl⟩ := List.mem_map.mp he
  exact hg w

/-- The common shape of every return path of astream:
phase(searching), one sources event, phase(generating), tokens, one done
event — which is exactly the discipline the claim states. -/
theorem stream_shape (s0 : List SourceEntry) (toks : List SEvent) (d : SEvent)
    (hd : d.isDone = true)
    (htok : ∀ e ∈ toks, e.isSources = false ∧ e.isDone = false) :
    ∃ (pre mid : List SEvent) (s : List SourceEntry) (dd : SEvent),
      ([SEvent.phase "searching"] ++ [SEvent.sources s0]
          ++ [SEvent.phase "generating"] ++ toks ++ [d])
        = pre ++ SEvent.sources s :: (mid ++ [dd])
      ∧ dd.isDone = true
      ∧ (∀ e ∈ pre, e.isSources = false ∧ e.isDone = false ∧ e.isToken = false)
      ∧ (∀ e ∈ mid, e.isSources = false ∧ e.isDone = false) := by
  refine ⟨[SEvent.phase "searching"], SEvent.phase "generating" :: toks, s0, d,
    ?_, hd, ?_, ?_⟩
  · simp
  · intro e he
    simp only [List.mem_singleton] at he
    subst he
    exact ⟨rfl, rfl, rfl⟩
  · intro e he
    rcases List.mem_cons.mp he with rfl | he2
    · exact ⟨rfl, rfl⟩
    · exact htok e he2

/-- C8: every non-exception streamed query emits exactly one sources event
and exactly one done event; every token event lies strictly between them (in
particular none precedes the sources event), and nothing follows the done
event.  The decomposition below says exactly that: the events split as
`pre ++ [sources s] ++ mid ++ [done …]` where `pre` holds no token, sources
or done event and `mid` holds no sources or done event. -/
theorem c8_stream_event_discipline (o : Oracle)
    (question sessionId collectionName : String) :
    ∃ (pre mid : List SEvent) (s : List SourceEntry) (d : SEvent),
      astreamEvents o question sessionId collectionName
        = pre ++ SEvent.sources s :: (mid ++ [d])
      ∧ d.isDone = true
      ∧ (∀ e ∈ pre, e.isSources = false ∧ e.isDone = false ∧ e.isToken = false)
      ∧ (∀ e ∈ mid, e.isSources = false ∧ e.isDone = false) := by
  unfold astreamEvents
  dsimp only
  split_ifs <;>
    exact stream_shape _ _ _ rfl
      (token_map_ok _ _ (fun w => ⟨rfl, rfl⟩))

end AxiomRag
